import Mathlib

/-!
Verification of the RALPH hook scripts (`hooks/auto-approve.py`,
`hooks/post-edit-lint.py`, `hooks/validate-stop.py`).

The development shallowly embeds the three scripts:

* a small regular-expression engine models the subset of Python `re`
  syntax used by the scripts (`re.search` with `re.IGNORECASE`);
* `AutoApprove.main`, `PostEditLint.main` and `ValidateStop.main` embed
  the scripts' `main` functions; I/O (stdin JSON parsing, environment
  variables, the filesystem, the persisted state file and the lint
  subprocess) is made explicit as function parameters;
* exiting the process is modelled by result records carrying the exit
  code, the printed decision (if any) and the persisted state.
-/

/-! ## Generic list helpers used by the embedding -/

/-- Python `xs[-n:]`: the final `n` elements of a list (all of it when
shorter than `n`). -/
def lastN (n : Nat) (xs : List α) : List α :=
  xs.drop (xs.length - n)

/-- Python `s.split('\n')` on a character list: split at every newline,
keeping empty segments. -/
def splitNl : List Char → List (List Char)
  | [] => [[]]
  | c :: rest =>
    if c = '\n' then [] :: splitNl rest
    else
      match splitNl rest with
      | [] => [[c]]
      | h :: t => (c :: h) :: t

/-- Python `'\n'.join(lines)` on character lists. -/
def joinNl : List (List Char) → List Char
  | [] => []
  | [l] => l
  | l :: rest => l ++ '\n' :: joinNl rest

/-- `startsWithSeq needle hay`: `needle` is a prefix of `hay`. -/
def startsWithSeq : List Char → List Char → Bool
  | [], _ => true
  | _ :: _, [] => false
  | a :: as, b :: bs => a == b && startsWithSeq as bs

/-- Python `needle in hay`: contiguous-substring test on character
lists. -/
def containsSeq (needle : List Char) : List Char → Bool
  | [] => startsWithSeq needle []
  | c :: rest => startsWithSeq needle (c :: rest) || containsSeq needle rest

/-! ## A model of the Python `re` subset used by the hooks

Only the constructs appearing in the scripts' patterns are modelled:
literal characters, `.`, `\d`, `\s`, character classes, `*` `+` on
single-character atoms, `?`, grouping/alternation, the word boundary
`\b`, and the anchors `^` and `$`.  All matching is case-insensitive
(the scripts always pass `re.IGNORECASE`), modelled by comparing
ASCII-lowercased characters. -/

/-- Python `\w` (ASCII): letters, digits and underscore. -/
def isWordChar (c : Char) : Bool :=
  c.isAlphanum || c == '_'

/-- A single-character regex atom. -/
inductive Ratom where
  | rchar (c : Char)
  | rany
  | rdigit
  | rspace
  | rcls (cs : List Char)
deriving DecidableEq

/-- Does atom `a` match character `c` (case-insensitively)? -/
def Ratom.matches : Ratom → Char → Bool
  | .rchar a, c => a.toLower == c.toLower
  | .rany, c => c != '\n'
  | .rdigit, c => c.isDigit
  | .rspace, c =>
      c == ' ' || c == '\t' || c == '\n' || c == '\r' || c == '\x0b' || c == '\x0c'
  | .rcls cs, c => cs.any (fun a => a.toLower == c.toLower)

/-- Regular expressions over `Ratom`; `rstar`/`rplus` are restricted to
single-character atoms, which covers every pattern in the scripts. -/
inductive Regex where
  | rempty
  | ratom (a : Ratom)
  | rseq (r1 r2 : Regex)
  | ralt (r1 r2 : Regex)
  | rstar (a : Ratom)
  | rplus (a : Ratom)
  | ropt (r : Regex)
  | rword
  | rbol
  | reol
deriving DecidableEq

/-- Word-boundary test between the previous character (`none` at the
start of the text) and the rest of the text. -/
def boundaryB (prev : Option Char) (rest : List Char) : Bool :=
  (match prev with | none => false | some c => isWordChar c)
    != (match rest with | [] => false | c :: _ => isWordChar c)

/-- All ways `a*` can consume a prefix of `l`: zero or more matching
characters.  Returns the (previous character, remaining text) pair after
each possibility. -/
def starMatches (a : Ratom) (prev : Option Char) : List Char → List (Option Char × List Char)
  | [] => [(prev, [])]
  | c :: rest =>
    if a.matches c then (prev, c :: rest) :: starMatches a (some c) rest
    else [(prev, c :: rest)]

/-- All ways regex `r` can match a prefix of `l`, given the character
just before the current position (`none` at the start of the whole
text).  Each result is the state after the match. -/
def matchList : Regex → Option Char → List Char → List (Option Char × List Char)
  | .rempty, prev, l => [(prev, l)]
  | .ratom _, _, [] => []
  | .ratom a, _, c :: rest => if a.matches c then [(some c, rest)] else []
  | .rseq r1 r2, prev, l =>
      (matchList r1 prev l).flatMap (fun pr => matchList r2 pr.1 pr.2)
  | .ralt r1 r2, prev, l => matchList r1 prev l ++ matchList r2 prev l
  | .rstar a, prev, l => starMatches a prev l
  | .rplus _, _, [] => []
  | .rplus a, _, c :: rest =>
      if a.matches c then starMatches a (some c) rest else []
  | .ropt r, prev, l => (prev, l) :: matchList r prev l
  | .rword, prev, l => if boundaryB prev l then [(prev, l)] else []
  | .rbol, prev, l => if prev.isNone then [(prev, l)] else []
  | .reol, prev, l => if l.isEmpty || l == ['\n'] then [(prev, l)] else []

/-- Try to match `r` at the current position or at any later one
(Python `re.search` success test). -/
def searchFrom (r : Regex) : Option Char → List Char → Bool
  | prev, [] => !(matchList r prev []).isEmpty
  | prev, c :: rest =>
      !(matchList r prev (c :: rest)).isEmpty || searchFrom r (some c) rest

/-- Python `re.search(r, text, re.IGNORECASE) is not None`. -/
def reSearch (r : Regex) (text : List Char) : Bool :=
  searchFrom r none text

/-- A sequence of literal characters. -/
def rchars : List Char → Regex
  | [] => .rempty
  | [c] => .ratom (.rchar c)
  | c :: rest => .rseq (.ratom (.rchar c)) (rchars rest)

/-- Literal-string regex. -/
def rstr (s : String) : Regex := rchars s.data

/-- Concatenation of a list of regexes. -/
def rcat (l : List Regex) : Regex := l.foldr .rseq .rempty

/-- Alternation of a list of regexes (empty list never matches via an
impossible atom; the scripts never build empty alternations). -/
def ralts : List Regex → Regex
  | [] => .ratom (.rcls [])
  | [r] => r
  | r :: rest => .ralt r (ralts rest)

/-! ## `validate-stop.py`: transcript evidence scanner -/

namespace ValidateStop

/-- `cd frontend\s*&&\s*npm run build` -/
def cmdFrontendBuild : Regex :=
  rcat [rstr "cd frontend", .rstar .rspace, rstr "&&", .rstar .rspace, rstr "npm run build"]

/-- `cd frontend\s*&&\s*npm test` -/
def cmdFrontendTest : Regex :=
  rcat [rstr "cd frontend", .rstar .rspace, rstr "&&", .rstar .rspace, rstr "npm test"]

/-- `cd frontend\s*&&\s*npm run lint` -/
def cmdFrontendLint : Regex :=
  rcat [rstr "cd frontend", .rstar .rspace, rstr "&&", .rstar .rspace, rstr "npm run lint"]

/-- `cd backend\s*&&\s*npm run build` -/
def cmdBackendBuild : Regex :=
  rcat [rstr "cd backend", .rstar .rspace, rstr "&&", .rstar .rspace, rstr "npm run build"]

/-- `cd backend\s*&&\s*npm test` -/
def cmdBackendTest : Regex :=
  rcat [rstr "cd backend", .rstar .rspace, rstr "&&", .rstar .rspace, rstr "npm test"]

/-- `cd backend\s*&&\s*npm run lint` -/
def cmdBackendLint : Regex :=
  rcat [rstr "cd backend", .rstar .rspace, rstr "&&", .rstar .rspace, rstr "npm run lint"]

/-- `cd electron\s*&&\s*npm run build` -/
def cmdElectronBuild : Regex :=
  rcat [rstr "cd electron", .rstar .rspace, rstr "&&", .rstar .rspace, rstr "npm run build"]

/-- `cd electron\s*&&\s*npm test` -/
def cmdElectronTest : Regex :=
  rcat [rstr "cd electron", .rstar .rspace, rstr "&&", .rstar .rspace, rstr "npm test"]

/-- `cd mobile\s*&&\s*npx tsc` -/
def cmdMobileBuild : Regex :=
  rcat [rstr "cd mobile", .rstar .rspace, rstr "&&", .rstar .rspace, rstr "npx tsc"]

/-- `cd mobile\s*&&\s*npm test` -/
def cmdMobileTest : Regex :=
  rcat [rstr "cd mobile", .rstar .rspace, rstr "&&", .rstar .rspace, rstr "npm test"]

/-- The `package_commands` dict in `check_validation_in_transcript`,
with the `.get(target_package, package_commands["frontend"])` fallback. -/
def package_commands (target_package : String) : List (Regex × String) :=
  if target_package = "frontend" then
    [(cmdFrontendBuild, "build"), (cmdFrontendTest, "test"), (cmdFrontendLint, "lint")]
  else if target_package = "backend" then
    [(cmdBackendBuild, "build"), (cmdBackendTest, "test"), (cmdBackendLint, "lint")]
  else if target_package = "electron" then
    [(cmdElectronBuild, "build"), (cmdElectronTest, "test")]
  else if target_package = "mobile" then
    [(cmdMobileBuild, "build"), (cmdMobileTest, "test")]
  else
    [(cmdFrontendBuild, "build"), (cmdFrontendTest, "test"), (cmdFrontendLint, "lint")]

/-- `FAIL\s+` -/
def failPatFail : Regex := rcat [rstr "FAIL", .rplus .rspace]

/-- `error TS\d+` -/
def failPatTs : Regex := rcat [rstr "error TS", .rplus .rdigit]

/-- `\d+ errors?\b` -/
def failPatErrCount : Regex :=
  rcat [.rplus .rdigit, rstr " error", .ropt (.ratom (.rchar 's')), .rword]

/-- `npm ERR!` -/
def failPatNpm : Regex := rstr "npm ERR!"

/-- `Command failed` -/
def failPatCommand : Regex := rstr "Command failed"

/-- `Build failed` -/
def failPatBuild : Regex := rstr "Build failed"

/-- `Test failed` -/
def failPatTest : Regex := rstr "Test failed"

/-- The `failure_patterns` list. -/
def failure_patterns : List Regex :=
  [failPatFail, failPatTs, failPatErrCount, failPatNpm, failPatCommand,
   failPatBuild, failPatTest]

/-- `Build completed` -/
def succPatBuild : Regex := rstr "Build completed"

/-- `All tests passed` -/
def succPatAllTests : Regex := rstr "All tests passed"

/-- `âœ“.*tests? passed` (the source file's mangled checkmark glyph is
the three characters U+00E2 U+0153 U+201C). -/
def succPatCheckmark : Regex :=
  rcat [.ratom (.rchar (Char.ofNat 0xE2)), .ratom (.rchar (Char.ofNat 0x153)),
        .ratom (.rchar (Char.ofNat 0x201C)), .rstar .rany,
        rstr "test", .ropt (.ratom (.rchar 's')), rstr " passed"]

/-- `Found \d+ warnings? and 0 errors` -/
def succPatWarnings : Regex :=
  rcat [rstr "Found ", .rplus .rdigit, rstr " warning", .ropt (.ratom (.rchar 's')),
        rstr " and 0 errors"]

/-- `0 errors` -/
def succPatZeroErrors : Regex := rstr "0 errors"

/-- The `success_patterns` list. -/
def success_patterns : List Regex :=
  [succPatBuild, succPatAllTests, succPatCheckmark, succPatWarnings, succPatZeroErrors]

/-- Result record of `check_validation_in_transcript`. -/
structure ValidationReport where
  ran : Bool
  ran_commands : List String
  missing : List String
  has_failures : Bool
  has_success : Bool
  passed : Bool
deriving DecidableEq

/-- The trailing 100-line window of the transcript:
`'\n'.join(transcript.split('\n')[-100:])`. -/
def recentWindow (transcript : String) : List Char :=
  joinNl (lastN 100 (splitNl transcript.data))

/-- `check_validation_in_transcript(transcript, target_package)`. -/
def check_validation_in_transcript (transcript : String) (target_package : String) :
    ValidationReport :=
  let commands := package_commands target_package
  let ran_commands := (commands.filter (fun pc => reSearch pc.1 transcript.data)).map (·.2)
  let missing_commands := (commands.filter (fun pc => !reSearch pc.1 transcript.data)).map (·.2)
  let recent_output := recentWindow transcript
  let has_failures := failure_patterns.any (fun p => reSearch p recent_output)
  let has_success := success_patterns.any (fun p => reSearch p recent_output)
  { ran := ran_commands.length > 0
    ran_commands := ran_commands
    missing := missing_commands
    has_failures := has_failures
    has_success := has_success
    passed := (missing_commands.length == 0 && !has_failures) && has_success }

end ValidateStop

/-! ## `validate-stop.py`: stop-gate state machine -/

namespace ValidateStop

/-- The parsed stdin payload of the stop hook: `stop_hook_active`
(truthiness of `input_data.get("stop_hook_active")`), `session_id`
(`none` when the key is absent, defaulted to `"unknown"` by `main`) and
`transcript_path` (`input_data.get("transcript_path", "")`). -/
structure StopInput where
  stop_hook_active : Bool
  session_id : Option String
  transcript_path : String
deriving DecidableEq

/-- The persisted `.ralph/hook-state.json` record:
`{"continuation_count": ..., "session_id": ...}`. -/
structure GateState where
  continuation_count : Nat
  session_id : Option String
deriving DecidableEq

/-- Outcome of one stop-hook invocation: the process exit code, the
reason of the printed `{"decision": "block", "reason": ...}` object (if
one was printed), and the persisted state when the process exits (equal
to the input state when the script never calls `save_ralph_state`). -/
structure StopResult where
  exitCode : Nat
  blockReason : Option String
  state : GateState
deriving DecidableEq

/-- The guidance message built in the block branch of `main`, including
the `(Continuation k/max)` suffix. -/
def buildReason (validation : ValidationReport) (target_package : String)
    (count max_continuations : Nat) : String :=
  (if validation.missing ≠ [] then
    "Run validation before completing. Missing: " ++
      String.intercalate ", " validation.missing ++
      ". Commands: cd " ++ target_package ++ " && npm run build && npm test && npm run lint"
   else if validation.has_failures then
    "Validation errors detected. Fix the errors and re-run validation commands."
   else if validation.has_success = false then
    "Validation commands ran but success not confirmed. Re-run: cd " ++
      target_package ++ " && npm run build && npm test && npm run lint"
   else
    "Validation incomplete. Ensure all commands pass before completing.")
  ++ " (Continuation " ++ toString count ++ "/" ++ toString max_continuations ++ ")"

/-- `main()` of `validate-stop.py`.

The script's ambient effects are passed explicitly:
* `force_stop` — `os.environ.get("RALPH_FORCE_STOP") == "true"`;
* `max_continuations` — `int(os.environ.get("RALPH_MAX_CONTINUATIONS", "5"))`;
* `target_package` — `os.environ.get("RALPH_TARGET_PACKAGE", "frontend")`;
* `fs` — the filesystem: `fs p = some t` when the transcript file `p`
  exists and reads as `t`, `none` when it is missing or unreadable;
* `inputData` — the parsed stdin JSON; `none` models a
  `json.JSONDecodeError` (the script then prints to stderr and exits 1);
* `persisted` — the state returned by `load_ralph_state()`. -/
def main (force_stop : Bool) (max_continuations : Nat) (target_package : String)
    (fs : String → Option String) (inputData : Option StopInput)
    (persisted : GateState) : StopResult :=
  match inputData with
  | none => ⟨1, none, persisted⟩
  | some input =>
    if force_stop then ⟨0, none, persisted⟩
    else if input.stop_hook_active then ⟨0, none, ⟨0, persisted.session_id⟩⟩
    else
      let session_id := input.session_id.getD "unknown"
      let state1 : GateState :=
        if persisted.session_id ≠ some session_id then ⟨0, some session_id⟩ else persisted
      let state2 : GateState := ⟨state1.continuation_count + 1, state1.session_id⟩
      if state2.continuation_count > max_continuations then ⟨0, none, state2⟩
      else if input.transcript_path = "" then ⟨0, none, state2⟩
      else
        match fs input.transcript_path with
        | none => ⟨0, none, state2⟩
        | some transcript =>
          let validation := check_validation_in_transcript transcript target_package
          if validation.passed then ⟨0, none, ⟨0, state2.session_id⟩⟩
          else
            ⟨0, some (buildReason validation target_package
                        state2.continuation_count max_continuations), state2⟩

/-- The session identity `main` works with:
`input_data.get("session_id", "unknown")`. -/
def incomingSession (input : StopInput) : String :=
  input.session_id.getD "unknown"

/-- The continuation count persisted by `main` right before the
max-continuations check: the stored count (reset on a session change)
plus one. -/
def nextCount (persisted : GateState) (input : StopInput) : Nat :=
  (if persisted.session_id ≠ some (incomingSession input) then 0
   else persisted.continuation_count) + 1

/-- One step of a sequence of stop-hook invocations (the stdin payload
together with the filesystem contents at that moment). -/
structure GateStep where
  input : StopInput
  fs : String → Option String

/-- Run a sequence of stop-hook invocations with `force_stop` unset,
threading the persisted state from each invocation to the next. -/
def runGate (max_continuations : Nat) (target_package : String) :
    List GateStep → GateState → List StopResult
  | [], _ => []
  | step :: rest, st =>
    let r := main false max_continuations target_package step.fs (some step.input) st
    r :: runGate max_continuations target_package rest r.state

end ValidateStop

/-! ## `auto-approve.py`: command classifier -/

namespace AutoApprove

/-- `^cd\s+(frontend|backend|electron|mobile|chrome-extension)\s*&&\s*npm\s+(run\s+)?(build|lint|test)` -/
def safePatCdNpm : Regex :=
  rcat [.rbol, rstr "cd", .rplus .rspace,
        ralts [rstr "frontend", rstr "backend", rstr "electron", rstr "mobile",
               rstr "chrome-extension"],
        .rstar .rspace, rstr "&&", .rstar .rspace, rstr "npm", .rplus .rspace,
        .ropt (rcat [rstr "run", .rplus .rspace]),
        ralts [rstr "build", rstr "lint", rstr "test"]]

/-- `^cd\s+(frontend|backend|electron|mobile)\s*&&\s*npx\s+(tsc|vitest|playwright|oxlint)` -/
def safePatCdNpx : Regex :=
  rcat [.rbol, rstr "cd", .rplus .rspace,
        ralts [rstr "frontend", rstr "backend", rstr "electron", rstr "mobile"],
        .rstar .rspace, rstr "&&", .rstar .rspace, rstr "npx", .rplus .rspace,
        ralts [rstr "tsc", rstr "vitest", rstr "playwright", rstr "oxlint"]]

/-- `^npm\s+(run\s+)?(build|lint|test|typecheck)` -/
def safePatNpm : Regex :=
  rcat [.rbol, rstr "npm", .rplus .rspace, .ropt (rcat [rstr "run", .rplus .rspace]),
        ralts [rstr "build", rstr "lint", rstr "test", rstr "typecheck"]]

/-- `^npx\s+(tsc|vitest|playwright|oxlint|eslint|prettier)` -/
def safePatNpx : Regex :=
  rcat [.rbol, rstr "npx", .rplus .rspace,
        ralts [rstr "tsc", rstr "vitest", rstr "playwright", rstr "oxlint",
               rstr "eslint", rstr "prettier"]]

/-- `^git\s+(status|diff|log|branch|show|ls-files)` -/
def safePatGitRead : Regex :=
  rcat [.rbol, rstr "git", .rplus .rspace,
        ralts [rstr "status", rstr "diff", rstr "log", rstr "branch", rstr "show",
               rstr "ls-files"]]

/-- `^git\s+diff\s+` -/
def safePatGitDiff : Regex :=
  rcat [.rbol, rstr "git", .rplus .rspace, rstr "diff", .rplus .rspace]

/-- `^npm\s+(ls|list|outdated|audit)` -/
def safePatNpmInfo : Regex :=
  rcat [.rbol, rstr "npm", .rplus .rspace,
        ralts [rstr "ls", rstr "list", rstr "outdated", rstr "audit"]]

/-- `^cat\s+package\.json` -/
def safePatCat : Regex :=
  rcat [.rbol, rstr "cat", .rplus .rspace, rstr "package.json"]

/-- `^ls\s` -/
def safePatLs : Regex := rcat [.rbol, rstr "ls", .ratom .rspace]

/-- `^pwd$` -/
def safePatPwd : Regex := rcat [.rbol, rstr "pwd", .reol]

/-- `^echo\s` -/
def safePatEcho : Regex := rcat [.rbol, rstr "echo", .ratom .rspace]

/-- `^which\s` -/
def safePatWhich : Regex := rcat [.rbol, rstr "which", .ratom .rspace]

/-- `^node\s+--version` -/
def safePatNode : Regex := rcat [.rbol, rstr "node", .rplus .rspace, rstr "--version"]

/-- `^npm\s+--version` -/
def safePatNpmVersion : Regex := rcat [.rbol, rstr "npm", .rplus .rspace, rstr "--version"]

/-- `SAFE_PATTERNS`. -/
def SAFE_PATTERNS : List Regex :=
  [safePatCdNpm, safePatCdNpx, safePatNpm, safePatNpx, safePatGitRead, safePatGitDiff,
   safePatNpmInfo, safePatCat, safePatLs, safePatPwd, safePatEcho, safePatWhich,
   safePatNode, safePatNpmVersion]

/-- `rm\s+(-[rf]+\s+|.*-[rf])` -/
def dangerPatRm : Regex :=
  rcat [rstr "rm", .rplus .rspace,
        .ralt (rcat [rstr "-", .rplus (.rcls ['r', 'f']), .rplus .rspace])
              (rcat [.rstar .rany, rstr "-", .ratom (.rcls ['r', 'f'])])]

/-- `sudo\s+` -/
def dangerPatSudo : Regex := rcat [rstr "sudo", .rplus .rspace]

/-- `chmod\s+777` -/
def dangerPatChmod : Regex := rcat [rstr "chmod", .rplus .rspace, rstr "777"]

/-- `>\s*/dev/` -/
def dangerPatDev : Regex := rcat [rstr ">", .rstar .rspace, rstr "/dev/"]

/-- `\|\s*(ba)?sh` -/
def dangerPatPipeShell : Regex :=
  rcat [rstr "|", .rstar .rspace, .ropt (rstr "ba"), rstr "sh"]

/-- `curl.*\|\s*(ba)?sh` -/
def dangerPatCurl : Regex :=
  rcat [rstr "curl", .rstar .rany, rstr "|", .rstar .rspace, .ropt (rstr "ba"), rstr "sh"]

/-- `wget.*\|\s*(ba)?sh` -/
def dangerPatWget : Regex :=
  rcat [rstr "wget", .rstar .rany, rstr "|", .rstar .rspace, .ropt (rstr "ba"), rstr "sh"]

/-- `eval\s+` -/
def dangerPatEval : Regex := rcat [rstr "eval", .rplus .rspace]

/-- `:\s*\(\)\s*\{` (fork-bomb shape; the escaped brace is written with
its code point). -/
def dangerPatForkBomb : Regex :=
  rcat [rstr ":", .rstar .rspace, rstr "()", .rstar .rspace, rstr "\x7b"]

/-- `mkfs\.` -/
def dangerPatMkfs : Regex := rstr "mkfs."

/-- `dd\s+if=` -/
def dangerPatDd : Regex := rcat [rstr "dd", .rplus .rspace, rstr "if="]

/-- `DANGEROUS_PATTERNS`. -/
def DANGEROUS_PATTERNS : List Regex :=
  [dangerPatRm, dangerPatSudo, dangerPatChmod, dangerPatDev, dangerPatPipeShell,
   dangerPatCurl, dangerPatWget, dangerPatEval, dangerPatForkBomb, dangerPatMkfs,
   dangerPatDd]

/-- `git\s+(push|pull|checkout|merge|rebase|reset)` -/
def askPatGit : Regex :=
  rcat [rstr "git", .rplus .rspace,
        ralts [rstr "push", rstr "pull", rstr "checkout", rstr "merge", rstr "rebase",
               rstr "reset"]]

/-- `npm\s+(install|uninstall|update)` -/
def askPatNpm : Regex :=
  rcat [rstr "npm", .rplus .rspace, ralts [rstr "install", rstr "uninstall", rstr "update"]]

/-- `rm\s+` -/
def askPatRm : Regex := rcat [rstr "rm", .rplus .rspace]

/-- `mv\s+` -/
def askPatMv : Regex := rcat [rstr "mv", .rplus .rspace]

/-- `cp\s+` -/
def askPatCp : Regex := rcat [rstr "cp", .rplus .rspace]

/-- `ASK_PATTERNS`. -/
def ASK_PATTERNS : List Regex :=
  [askPatGit, askPatNpm, askPatRm, askPatMv, askPatCp]

/-- The parsed stdin payload: `tool_name` and
`tool_input.get("command", "")`. -/
structure Input where
  tool_name : String
  command : String
deriving DecidableEq

/-- Outcome of one invocation: the exit code (`2` is the blocking
signal) and the reason field of the printed auto-approval object, if
one was printed. -/
structure Result where
  exitCode : Nat
  output : Option String
deriving DecidableEq

/-- Python `str.strip()` whitespace (ASCII). -/
def isStripSpace (c : Char) : Bool :=
  c == ' ' || c == '\t' || c == '\n' || c == '\r' || c == '\x0b' || c == '\x0c'

/-- Python `command.strip()` on a character list. -/
def stripChars (l : List Char) : List Char :=
  ((l.dropWhile isStripSpace).reverse.dropWhile isStripSpace).reverse

/-- Does some dangerous pattern match the normalized command? -/
def dangerousAny (command_normalized : List Char) : Bool :=
  DANGEROUS_PATTERNS.any (fun p => reSearch p command_normalized)

/-- Does some ask pattern match the normalized command? -/
def askAny (command_normalized : List Char) : Bool :=
  ASK_PATTERNS.any (fun p => reSearch p command_normalized)

/-- Does some safe pattern match the normalized command? -/
def safeAny (command_normalized : List Char) : Bool :=
  SAFE_PATTERNS.any (fun p => reSearch p command_normalized)

/-- `main()` of `auto-approve.py`.  `hookDisabled` is
`os.environ.get("RALPH_HOOK_AUTO_APPROVE") == "false"`; `inputData` is
the parsed stdin JSON (`none` on `json.JSONDecodeError`).  The printed
auto-approval JSON object is modelled by its
`permissionDecisionReason`. -/
def main (hookDisabled : Bool) (inputData : Option Input) : Result :=
  match inputData with
  | none => ⟨0, none⟩
  | some input =>
    if input.tool_name ≠ "Bash" then ⟨0, none⟩
    else if hookDisabled then ⟨0, none⟩
    else if input.command = "" then ⟨0, none⟩
    else
      let command_normalized := stripChars input.command.data
      if dangerousAny command_normalized then ⟨2, none⟩
      else if askAny command_normalized then ⟨0, none⟩
      else if safeAny command_normalized then
        ⟨0, some "Auto-approved by RALPH (safe validation command)"⟩
      else ⟨0, none⟩

end AutoApprove

/-! ## `post-edit-lint.py`: post-edit lint hook -/

namespace PostEditLint

/-- `LINTABLE_EXTENSIONS`. -/
def LINTABLE_EXTENSIONS : List String :=
  [".ts", ".tsx", ".js", ".jsx", ".mjs", ".cjs"]

/-- `PACKAGE_PATTERNS`. -/
def PACKAGE_PATTERNS : List (String × String) :=
  [("frontend/", "frontend"), ("backend/", "backend"), ("electron/", "electron"),
   ("mobile/", "mobile"), ("chrome-extension/", "chrome-extension")]

/-- `get_package_for_file`: the first pattern occurring in the path. -/
def get_package_for_file (file_path : String) : Option String :=
  (PACKAGE_PATTERNS.find? (fun pp => containsSeq pp.1.data file_path.data)).map (·.2)

/-- The final path component (after the last `/`). -/
def lastComponent (l : List Char) : List Char :=
  l.foldl (fun acc c => if c = '/' then [] else acc ++ [c]) []

/-- `Path(file_path).suffix.lower()`: the dotted extension of the final
component, lowercased; empty when the name has no dot, starts with its
only dot, or ends in a dot. -/
def pathSuffix (file_path : String) : String :=
  let name := lastComponent file_path.data
  let revTail := name.reverse.takeWhile (fun c => c ≠ '.')
  if revTail.length = name.length then ""          -- no dot at all
  else if revTail.length = 0 then ""               -- trailing dot
  else if revTail.length + 1 = name.length then "" -- the only dot is leading
  else ⟨('.' :: revTail.reverse).map Char.toLower⟩

/-- The parsed stdin payload: `tool_name` and
`tool_input.get("file_path") or tool_input.get("filePath", "")`. -/
structure Input where
  tool_name : String
  file_path : String
deriving DecidableEq

/-- Outcome of one invocation: exit code and the `additionalContext`
field of the printed object, if one was printed. -/
structure Result where
  exitCode : Nat
  output : Option String
deriving DecidableEq

/-- `main()` of `post-edit-lint.py`.  `hookDisabled` is
`os.environ.get("RALPH_HOOK_LINT") == "false"`; `run_lint` is the
advisory oxlint subprocess (`run_lint(file_path, package, project_root)`
returning its filtered findings, `none` when there are none or the tool
is missing or timed out); `inputData` is the parsed stdin JSON (`none`
on `json.JSONDecodeError`). -/
def main (hookDisabled : Bool) (project_root : String)
    (run_lint : String → String → String → Option String)
    (inputData : Option Input) : Result :=
  match inputData with
  | none => ⟨0, none⟩
  | some input =>
    if input.tool_name ≠ "Edit" ∧ input.tool_name ≠ "Write" then ⟨0, none⟩
    else if hookDisabled then ⟨0, none⟩
    else if input.file_path = "" then ⟨0, none⟩
    else if ¬ LINTABLE_EXTENSIONS.contains (pathSuffix input.file_path) then ⟨0, none⟩
    else
      match get_package_for_file input.file_path with
      | none => ⟨0, none⟩
      | some package =>
        match run_lint input.file_path package project_root with
        | none => ⟨0, none⟩
        | some lint_output =>
          let relative_path :=
            if startsWithSeq project_root.data input.file_path.data then
              String.mk ((input.file_path.data.drop project_root.data.length).dropWhile
                (fun c => c = '/'))
            else input.file_path
          ⟨0, some ("⚠️ Lint issues in " ++ relative_path ++ ":\n```\n" ++ lint_output ++
                    "\n```\nConsider fixing these before continuing.")⟩

end PostEditLint

/-! ## Helper lemmas about the stop gate -/

namespace ValidateStop

/-- With `force_stop` unset and `stop_hook_active` false, `main` first
persists the incremented count `nextCount` with the incoming session
adopted, then evaluates the escape conditions and the scanner. -/
theorem main_not_active (max_continuations : Nat) (target_package : String)
    (fs : String → Option String) (input : StopInput) (persisted : GateState)
    (hstop : input.stop_hook_active = false) :
    main false max_continuations target_package fs (some input) persisted =
      (if nextCount persisted input > max_continuations then
        ⟨0, none, ⟨nextCount persisted input, some (incomingSession input)⟩⟩
      else if input.transcript_path = "" then
        ⟨0, none, ⟨nextCount persisted input, some (incomingSession input)⟩⟩
      else
        match fs input.transcript_path with
        | none => ⟨0, none, ⟨nextCount persisted input, some (incomingSession input)⟩⟩
        | some transcript =>
          if (check_validation_in_transcript transcript target_package).passed then
            ⟨0, none, ⟨0, some (incomingSession input)⟩⟩
          else
            ⟨0, some (buildReason (check_validation_in_transcript transcript target_package)
                        target_package (nextCount persisted input) max_continuations),
             ⟨nextCount persisted input, some (incomingSession input)⟩⟩) := by
  by_cases h : persisted.session_id = some (input.session_id.getD "unknown")
  · simp [main, nextCount, incomingSession, hstop, h]
  · simp [main, nextCount, incomingSession, hstop, h]

end ValidateStop

namespace ValidateStop

/-- With `force_stop` unset and `stop_hook_active` false, every exit
path of `main` persists the incoming session identity. -/
theorem state_session_eq (max_continuations : Nat) (target_package : String)
    (fs : String → Option String) (input : StopInput) (persisted : GateState)
    (hstop : input.stop_hook_active = false) :
    (main false max_continuations target_package fs (some input) persisted).state.session_id
      = some (incomingSession input) := by
  rw [main_not_active _ _ _ _ _ hstop]
  split
  · rfl
  split
  · rfl
  split
  · rfl
  split
  · rfl
  · rfl

end ValidateStop

namespace ValidateStop

/-- Claim C7: with the `forceStop` override set, the stop gate allows
the stop immediately (exit 0, no block decision) for every payload and
every persisted state, and the persisted `GateState` — both `sessionId`
and `continuationCount` — is left completely unchanged. -/
theorem force_stop_frame (max_continuations : Nat) (target_package : String)
    (fs : String → Option String) (input : StopInput) (persisted : GateState) :
    main true max_continuations target_package fs (some input) persisted
      = ⟨0, none, persisted⟩ := rfl

/-- Claim C6: with `forceStop` unset and `stopAlreadyActive` false, an
invocation whose incoming session differs from the stored one behaves
exactly as if the persisted state had been
`⟨continuationCount := 0, sessionId := incoming⟩` from the start — the
count is reset to 0 and the new session adopted before the increment
and before any pass/fail or max-continuations evaluation — and the
persisted result adopts the incoming session. -/
theorem session_reset_before_eval (max_continuations : Nat) (target_package : String)
    (fs : String → Option String) (input : StopInput) (persisted : GateState)
    (hstop : input.stop_hook_active = false)
    (hnew : persisted.session_id ≠ some (incomingSession input)) :
    main false max_continuations target_package fs (some input) persisted
      = main false max_continuations target_package fs (some input)
          ⟨0, some (incomingSession input)⟩ ∧
    (main false max_continuations target_package fs (some input) persisted).state.session_id
      = some (incomingSession input) := by
  have h1 : nextCount persisted input = 1 := by simp [nextCount, hnew]
  have h2 : nextCount ⟨0, some (incomingSession input)⟩ input = 1 := by simp [nextCount]
  refine ⟨?_, state_session_eq _ _ _ _ _ hstop⟩
  rw [main_not_active _ _ _ _ _ hstop, main_not_active _ _ _ _ _ hstop, h1, h2]

/-- Claim C6 witness: a concrete session change (stored session `old`,
incoming session `new`) runs exactly like the reset state. -/
theorem session_reset_before_eval_witness :
    main false 5 "frontend" (fun _ => none) (some ⟨false, some "new", "t"⟩) ⟨3, some "old"⟩
      = main false 5 "frontend" (fun _ => none) (some ⟨false, some "new", "t"⟩)
          ⟨0, some "new"⟩ ∧
    (main false 5 "frontend" (fun _ => none) (some ⟨false, some "new", "t"⟩)
        ⟨3, some "old"⟩).state.session_id = some "new" :=
  session_reset_before_eval 5 "frontend" (fun _ => none) ⟨false, some "new", "t"⟩
    ⟨3, some "old"⟩ rfl (by decide)

/-- Claim C1 counterexample: an invocation that allows the stop through
the max-continuations escape valve (stored count 5, maximum 5) persists
`continuationCount = 6`, not 0. -/
theorem allow_without_reset_cex :
    main false 5 "frontend" (fun _ => none) (some ⟨false, some "s", "t"⟩) ⟨5, some "s"⟩
      = ⟨0, none, ⟨6, some "s"⟩⟩ ∧ (6 : Nat) ≠ 0 :=
  ⟨by decide, by decide⟩

/-- Claim C1 as amended: the allow paths for `stopAlreadyActive` and
for validation-passed reset the persisted `continuationCount` to 0, but
the allow paths for exceeding `maxContinuations` and for a missing or
unreadable transcript persist the just-incremented — hence nonzero —
count instead.  (`forceStop` mutates nothing, as before.) -/
theorem allow_reset_paths (max_continuations : Nat) (target_package : String)
    (fs : String → Option String) (input : StopInput) (persisted : GateState) :
    (input.stop_hook_active = true →
      main false max_continuations target_package fs (some input) persisted
        = ⟨0, none, ⟨0, persisted.session_id⟩⟩) ∧
    (∀ transcript, input.stop_hook_active = false →
      nextCount persisted input ≤ max_continuations →
      input.transcript_path ≠ "" →
      fs input.transcript_path = some transcript →
      (check_validation_in_transcript transcript target_package).passed = true →
      main false max_continuations target_package fs (some input) persisted
        = ⟨0, none, ⟨0, some (incomingSession input)⟩⟩) ∧
    (input.stop_hook_active = false →
      nextCount persisted input > max_continuations →
      main false max_continuations target_package fs (some input) persisted
        = ⟨0, none, ⟨nextCount persisted input, some (incomingSession input)⟩⟩ ∧
      nextCount persisted input ≠ 0) ∧
    (input.stop_hook_active = false →
      nextCount persisted input ≤ max_continuations →
      (input.transcript_path = "" ∨ fs input.transcript_path = none) →
      main false max_continuations target_package fs (some input) persisted
        = ⟨0, none, ⟨nextCount persisted input, some (incomingSession input)⟩⟩ ∧
      nextCount persisted input ≠ 0) := by
  refine ⟨fun hact => by simp [main, hact], ?_, ?_, ?_⟩
  · intro transcript hstop hle hpath hfs hpassed
    rw [main_not_active _ _ _ _ _ hstop]
    rw [if_neg (by omega), if_neg hpath, hfs]
    simp [hpassed]
  · intro hstop hgt
    rw [main_not_active _ _ _ _ _ hstop]
    exact ⟨by rw [if_pos hgt], by simp [nextCount]⟩
  · intro hstop hle hmiss
    refine ⟨?_, by simp [nextCount]⟩
    rw [main_not_active _ _ _ _ _ hstop, if_neg (by omega)]
    rcases hmiss with hpath | hfs
    · rw [if_pos hpath]
    · by_cases hpath : input.transcript_path = ""
      · rw [if_pos hpath]
      · rw [if_neg hpath, hfs]

/-- Claim C1 witness: the `stopAlreadyActive` allow path resets the
count of a concrete state to 0, and a concrete max-continuations allow
leaves the incremented count 6. -/
theorem allow_reset_paths_witness :
    (main false 5 "frontend" (fun _ => none) (some ⟨true, some "s", "t"⟩) ⟨3, some "s"⟩
       = ⟨0, none, ⟨0, some "s"⟩⟩) ∧
    (main false 5 "frontend" (fun _ => none) (some ⟨false, some "s", "t"⟩) ⟨5, some "s"⟩
       = ⟨0, none, ⟨6, some "s"⟩⟩ ∧ (6 : Nat) ≠ 0) :=
  ⟨(allow_reset_paths 5 "frontend" (fun _ => none) ⟨true, some "s", "t"⟩ ⟨3, some "s"⟩).1 rfl,
   (allow_reset_paths 5 "frontend" (fun _ => none) ⟨false, some "s", "t"⟩ ⟨5, some "s"⟩).2.2.1
     rfl (by decide)⟩

end ValidateStop

namespace ValidateStop

/-- A block decision (with `forceStop` unset and `stopAlreadyActive`
false) persists exactly the incremented count, and that count did not
exceed the maximum. -/
theorem block_state (max_continuations : Nat) (target_package : String)
    (fs : String → Option String) (input : StopInput) (persisted : GateState)
    (hstop : input.stop_hook_active = false)
    (hb : (main false max_continuations target_package fs (some input) persisted).blockReason.isSome) :
    (main false max_continuations target_package fs (some input) persisted).state
      = ⟨nextCount persisted input, some (incomingSession input)⟩ ∧
    nextCount persisted input ≤ max_continuations := by
  rw [main_not_active _ _ _ _ _ hstop] at hb ⊢
  by_cases hgt : nextCount persisted input > max_continuations
  · rw [if_pos hgt] at hb; simp at hb
  · rw [if_neg hgt] at hb ⊢
    by_cases hpath : input.transcript_path = ""
    · rw [if_pos hpath] at hb; simp at hb
    · rw [if_neg hpath] at hb ⊢
      cases hfs : fs input.transcript_path with
      | none => rw [hfs] at hb; simp at hb
      | some transcript =>
        rw [hfs] at hb
        dsimp only at hb ⊢
        by_cases hp : (check_validation_in_transcript transcript target_package).passed = true
        · rw [if_pos hp] at hb; simp at hb
        · rw [if_neg hp]; exact ⟨rfl, by omega⟩

/-- If every invocation of a same-session run blocks, the run length is
bounded by the continuation budget left in the starting state. -/
theorem runGate_blocks_aux (max_continuations : Nat) (target_package sid : String) :
    ∀ (steps : List GateStep) (st : GateState),
      st.session_id = some sid →
      (∀ s ∈ steps, s.input.stop_hook_active = false ∧ incomingSession s.input = sid) →
      (∀ r ∈ runGate max_continuations target_package steps st, r.blockReason.isSome) →
      steps.length ≤ max_continuations - st.continuation_count := by
  intro steps
  induction steps with
  | nil => intro st _ _ _; simp
  | cons s rest ih =>
    intro st hsess hsteps hblocks
    obtain ⟨hstop, hsid⟩ := hsteps s (by simp)
    have hb : (main false max_continuations target_package s.fs (some s.input) st).blockReason.isSome :=
      hblocks _ (by simp [runGate])
    obtain ⟨hst, hle⟩ := block_state _ _ _ _ _ hstop hb
    have hnc : nextCount st s.input = st.continuation_count + 1 := by
      simp [nextCount, hsid, hsess]
    have hrest := ih (main false max_continuations target_package s.fs (some s.input) st).state
      (by rw [hst, hsid]) (fun s2 hs2 => hsteps s2 (by simp [hs2]))
      (fun r hr => hblocks r (by simp [runGate]; right; exact hr))
    rw [hst] at hrest
    simp only [List.length_cons]
    rw [hnc] at hle
    simp only [hnc] at hrest
    omega

end ValidateStop

namespace ValidateStop

/-- Claim C4: stop-gate liveness.  In any run of invocations with the
same incoming session, `stopAlreadyActive` false and `forceStop` unset,
at most `maxContinuations` consecutive invocations can block — so the
`(maxContinuations + 1)`-th consecutive invocation that would otherwise
block must allow the stop.  Moreover a persisted count strictly greater
than `maxContinuations` (the counter is incremented and persisted
before the check) forces an allow independent of the evidence state. -/
theorem stop_gate_liveness (max_continuations : Nat) (target_package sid : String)
    (steps : List GateStep) (st : GateState)
    (hsteps : ∀ s ∈ steps, s.input.stop_hook_active = false ∧ incomingSession s.input = sid)
    (hblocks : ∀ r ∈ runGate max_continuations target_package steps st, r.blockReason.isSome) :
    steps.length ≤ max_continuations ∧
    (∀ (fs2 : String → Option String) (input : StopInput) (st2 : GateState),
      input.stop_hook_active = false →
      nextCount st2 input > max_continuations →
      (main false max_continuations target_package fs2 (some input) st2).blockReason = none ∧
      (main false max_continuations target_package fs2 (some input) st2).exitCode = 0) := by
  constructor
  · cases steps with
    | nil => simp
    | cons s rest =>
      obtain ⟨hstop, hsid⟩ := hsteps s (by simp)
      have hb : (main false max_continuations target_package s.fs (some s.input) st).blockReason.isSome :=
        hblocks _ (by simp [runGate])
      obtain ⟨hst, hle⟩ := block_state _ _ _ _ _ hstop hb
      have hone : 1 ≤ nextCount st s.input := by simp [nextCount]
      have hrest := runGate_blocks_aux max_continuations target_package sid rest
        (main false max_continuations target_package s.fs (some s.input) st).state
        (by rw [hst, hsid]) (fun s2 hs2 => hsteps s2 (by simp [hs2]))
        (fun r hr => hblocks r (by simp [runGate]; right; exact hr))
      rw [hst] at hrest
      dsimp only at hrest
      simp only [List.length_cons]
      omega
  · intro fs2 input st2 hstop hgt
    rw [main_not_active _ _ _ _ _ hstop, if_pos hgt]
    exact ⟨rfl, rfl⟩

/-- Claim C4 witness: a concrete single-step all-block run with
maximum 5 has length at most 5. -/
theorem stop_gate_liveness_witness :
    ([⟨⟨false, some "sid", "t"⟩, fun _ => some "x"⟩] : List GateStep).length ≤ 5 :=
  (stop_gate_liveness 5 "frontend" "sid" [⟨⟨false, some "sid", "t"⟩, fun _ => some "x"⟩]
    ⟨0, some "sid"⟩
    (by intro s hs; rw [List.mem_singleton] at hs; subst hs; exact ⟨rfl, rfl⟩)
    (by intro r hr; simp only [runGate] at hr; rw [List.mem_singleton] at hr; subst hr; decide)).1

end ValidateStop

namespace ValidateStop

/-- The `passed` field of the scanner, unfolded: all required commands
found, no failure signal, and a success signal. -/
theorem check_passed_iff (transcript target_package : String) :
    (check_validation_in_transcript transcript target_package).passed = true ↔
      ((check_validation_in_transcript transcript target_package).missing = [] ∧
       (check_validation_in_transcript transcript target_package).has_failures = false ∧
       (check_validation_in_transcript transcript target_package).has_success = true) := by
  simp only [check_validation_in_transcript]
  simp [List.length_eq_zero, and_assoc]

/-- Claim C3: the scanner's `passed` field is true iff `missing` is
empty, `has_failures` is false and `has_success` is true; consequently
a trailing window with a failure marker — even alongside a success
marker — yields `passed = false`. -/
theorem passed_iff (transcript target_package : String) :
    ((check_validation_in_transcript transcript target_package).passed = true ↔
      ((check_validation_in_transcript transcript target_package).missing = [] ∧
       (check_validation_in_transcript transcript target_package).has_failures = false ∧
       (check_validation_in_transcript transcript target_package).has_success = true)) ∧
    ((check_validation_in_transcript transcript target_package).has_failures = true →
      (check_validation_in_transcript transcript target_package).passed = false) := by
  refine ⟨check_passed_iff transcript target_package, fun h => ?_⟩
  cases hp : (check_validation_in_transcript transcript target_package).passed
  · rfl
  · have := (check_passed_iff transcript target_package).mp hp
    rw [h] at this
    exact absurd this.2.1 (by simp)

/-- Claim C3 witness: a concrete window holding both the failure marker
`Test failed` and the success marker `Build completed` is not passed. -/
theorem passed_iff_witness :
    (check_validation_in_transcript "Test failed\nBuild completed" "frontend").passed = false :=
  (passed_iff "Test failed\nBuild completed" "frontend").2 (by decide)

/-- Claim C8: the failure and success signals are functions of the
transcript's final 100 lines alone — two transcripts whose final 100
lines coincide get identical `has_failures` and `has_success` (while
`ran`/`missing` are computed over the full text). -/
theorem signals_window_only (t1 t2 target_package : String)
    (h : lastN 100 (splitNl t1.data) = lastN 100 (splitNl t2.data)) :
    (check_validation_in_transcript t1 target_package).has_failures
      = (check_validation_in_transcript t2 target_package).has_failures ∧
    (check_validation_in_transcript t1 target_package).has_success
      = (check_validation_in_transcript t2 target_package).has_success := by
  have hw : recentWindow t1 = recentWindow t2 := by
    rw [recentWindow, recentWindow, h]
  constructor <;> simp only [check_validation_in_transcript] <;> rw [hw]

set_option maxRecDepth 40000 in
/-- Claim C8 witness: two concrete 101-line transcripts differing only
in their first line produce identical failure and success signals. -/
theorem signals_window_only_witness :
    (check_validation_in_transcript ("b" ++ String.join (List.replicate 100 "\na")) "frontend").has_failures
      = (check_validation_in_transcript ("c" ++ String.join (List.replicate 100 "\na")) "frontend").has_failures ∧
    (check_validation_in_transcript ("b" ++ String.join (List.replicate 100 "\na")) "frontend").has_success
      = (check_validation_in_transcript ("c" ++ String.join (List.replicate 100 "\na")) "frontend").has_success :=
  signals_window_only ("b" ++ String.join (List.replicate 100 "\na"))
    ("c" ++ String.join (List.replicate 100 "\na")) "frontend" (by decide)

end ValidateStop

namespace ValidateStop

/-- Claim C10: whenever the stop gate blocks (with `forceStop` unset,
`stopAlreadyActive` false, the persisted count within budget and a
readable transcript that does not pass), at least one of the three
guidance causes holds — `missing` non-empty, `has_failures` true, or
`has_success` false — and the printed reason is built from exactly
those three guidance messages (the fallback "Validation incomplete"
branch is unreachable), always ending with the current continuation
count and the configured maximum. -/
theorem block_reason_causes (max_continuations : Nat) (target_package : String)
    (fs : String → Option String) (input : StopInput) (persisted : GateState)
    (transcript : String)
    (hstop : input.stop_hook_active = false)
    (hpath : input.transcript_path ≠ "")
    (hfs : fs input.transcript_path = some transcript)
    (hcnt : nextCount persisted input ≤ max_continuations)
    (hnp : (check_validation_in_transcript transcript target_package).passed = false) :
    ((check_validation_in_transcript transcript target_package).missing ≠ [] ∨
     (check_validation_in_transcript transcript target_package).has_failures = true ∨
     (check_validation_in_transcript transcript target_package).has_success = false) ∧
    (main false max_continuations target_package fs (some input) persisted).blockReason =
      some ((if (check_validation_in_transcript transcript target_package).missing ≠ [] then
              "Run validation before completing. Missing: " ++
                String.intercalate ", "
                  (check_validation_in_transcript transcript target_package).missing ++
                ". Commands: cd " ++ target_package ++
                " && npm run build && npm test && npm run lint"
            else if (check_validation_in_transcript transcript target_package).has_failures then
              "Validation errors detected. Fix the errors and re-run validation commands."
            else
              "Validation commands ran but success not confirmed. Re-run: cd " ++
                target_package ++ " && npm run build && npm test && npm run lint")
        ++ " (Continuation " ++ toString (nextCount persisted input) ++ "/"
        ++ toString max_continuations ++ ")") := by
  have hcauses :
      (check_validation_in_transcript transcript target_package).missing ≠ [] ∨
      (check_validation_in_transcript transcript target_package).has_failures = true ∨
      (check_validation_in_transcript transcript target_package).has_success = false := by
    by_contra hcon
    push_neg at hcon
    obtain ⟨h1, h2, h3⟩ := hcon
    have : (check_validation_in_transcript transcript target_package).passed = true :=
      (check_passed_iff transcript target_package).mpr
        ⟨h1, by simpa using h2, by simpa using h3⟩
    rw [hnp] at this
    exact absurd this (by simp)
  refine ⟨hcauses, ?_⟩
  rw [main_not_active _ _ _ _ _ hstop, if_neg (by omega), if_neg hpath, hfs]
  dsimp only
  rw [if_neg (by simp [hnp])]
  rw [buildReason]
  by_cases h1 : (check_validation_in_transcript transcript target_package).missing ≠ []
  · rw [if_pos h1, if_pos h1]
  · rw [if_neg h1, if_neg h1]
    by_cases h2 : (check_validation_in_transcript transcript target_package).has_failures = true
    · rw [if_pos h2, if_pos h2]
    · rw [if_neg h2, if_neg h2]
      have h3 : (check_validation_in_transcript transcript target_package).has_success = false := by
        rcases hcauses with hc | hc | hc
        · exact absurd hc h1
        · exact absurd hc h2
        · exact hc
      rw [if_pos h3]

/-- Claim C10 witness: a concrete blocked invocation (empty transcript,
count 1 of 5) produces the missing-commands guidance with the
continuation annotation. -/
theorem block_reason_causes_witness :
    ((check_validation_in_transcript "" "frontend").missing ≠ [] ∨
     (check_validation_in_transcript "" "frontend").has_failures = true ∨
     (check_validation_in_transcript "" "frontend").has_success = false) ∧
    (main false 5 "frontend" (fun _ => some "") (some ⟨false, some "s", "t"⟩)
        ⟨0, some "s"⟩).blockReason =
      some ((if (check_validation_in_transcript "" "frontend").missing ≠ [] then
              "Run validation before completing. Missing: " ++
                String.intercalate ", " (check_validation_in_transcript "" "frontend").missing ++
                ". Commands: cd " ++ "frontend" ++
                " && npm run build && npm test && npm run lint"
            else if (check_validation_in_transcript "" "frontend").has_failures then
              "Validation errors detected. Fix the errors and re-run validation commands."
            else
              "Validation commands ran but success not confirmed. Re-run: cd " ++
                "frontend" ++ " && npm run build && npm test && npm run lint")
        ++ " (Continuation " ++ toString (nextCount ⟨0, some "s"⟩ ⟨false, some "s", "t"⟩) ++ "/"
        ++ toString 5 ++ ")") :=
  block_reason_causes 5 "frontend" (fun _ => some "") ⟨false, some "s", "t"⟩ ⟨0, some "s"⟩ ""
    rfl (by decide) rfl (by decide) (by decide)

end ValidateStop

namespace AutoApprove

/-- Claim C2: for a Bash command processed by the enabled hook, a match
of any Dangerous-tier pattern forces the blocking exit signal (2),
regardless of Ask- or Safe-tier matches; and the first matching tier in
the order Dangerous, Ask, Safe determines the outcome (Ask defers with
no output, Safe prints the auto-approval, no match defers). -/
theorem dangerous_tier_precedence (input : Input)
    (htool : input.tool_name = "Bash") (hcmd : input.command ≠ "") :
    (dangerousAny (stripChars input.command.data) = true →
      main false (some input) = ⟨2, none⟩) ∧
    (dangerousAny (stripChars input.command.data) = false →
      askAny (stripChars input.command.data) = true →
      main false (some input) = ⟨0, none⟩) ∧
    (dangerousAny (stripChars input.command.data) = false →
      askAny (stripChars input.command.data) = false →
      safeAny (stripChars input.command.data) = true →
      main false (some input) = ⟨0, some "Auto-approved by RALPH (safe validation command)"⟩) ∧
    (dangerousAny (stripChars input.command.data) = false →
      askAny (stripChars input.command.data) = false →
      safeAny (stripChars input.command.data) = false →
      main false (some input) = ⟨0, none⟩) := by
  refine ⟨fun hd => ?_, fun hd ha => ?_, fun hd ha hs => ?_, fun hd ha hs => ?_⟩
  · simp [main, htool, hcmd, hd]
  · simp [main, htool, hcmd, hd, ha]
  · simp [main, htool, hcmd, hd, ha, hs]
  · simp [main, htool, hcmd, hd, ha, hs]

/-- Claim C2 witness: `sudo rm -rf /` matches a Dangerous pattern (two,
in fact) and is blocked with exit code 2. -/
theorem dangerous_tier_precedence_witness :
    main false (some ⟨"Bash", "sudo rm -rf /"⟩) = ⟨2, none⟩ :=
  (dangerous_tier_precedence ⟨"Bash", "sudo rm -rf /"⟩ rfl (by decide)).1 (by decide)

end AutoApprove

/-- Claim C5 counterexample: on malformed stdin JSON the stop gate
exits with status 1 — an error status, not the neutral status 0 the
other two hooks use. -/
theorem malformed_input_exit_cex :
    (ValidateStop.main false 5 "frontend" (fun _ => none) none ⟨0, none⟩).exitCode = 1 ∧
    (1 : Nat) ≠ 0 :=
  ⟨rfl, by decide⟩

/-- Claim C5 as amended: on malformed (unparseable) stdin input the
classifier and the post-edit lint hook are no-ops exiting with the
neutral status 0 and no output, while the stop gate emits no decision
and leaves the persisted state untouched but exits with the non-zero
(non-blocking error) status 1. -/
theorem malformed_input_neutral_amended (hookDisabled hookDisabled2 force_stop : Bool)
    (project_root : String) (run_lint : String → String → String → Option String)
    (max_continuations : Nat) (target_package : String)
    (fs : String → Option String) (persisted : ValidateStop.GateState) :
    AutoApprove.main hookDisabled none = ⟨0, none⟩ ∧
    PostEditLint.main hookDisabled2 project_root run_lint none = ⟨0, none⟩ ∧
    ValidateStop.main force_stop max_continuations target_package fs none persisted
      = ⟨1, none, persisted⟩ :=
  ⟨rfl, rfl, rfl⟩

namespace ValidateStop

/-- If a regex matches at the start of `rest` whatever the preceding
character is, then searching any text ending in `rest` succeeds. -/
theorem searchFrom_of_suffix (r : Regex) (rest : List Char)
    (hmatch : ∀ q : Option Char, (matchList r q rest).isEmpty = false) :
    ∀ (u : List Char) (prev : Option Char), searchFrom r prev (u ++ rest) = true := by
  intro u
  induction u with
  | nil =>
    intro prev
    cases rest with
    | nil => simp [searchFrom, hmatch prev]
    | cons c cs => simp [searchFrom, hmatch prev]
  | cons c u ih =>
    intro prev
    rw [List.cons_append]
    simp [searchFrom, ih (some c)]

/-- The failure pattern `\d+ errors?\b` matches at a position where the
text continues with `0 errors` followed by the end of the text or by a
non-word character, whatever the preceding character is. -/
theorem failPatErrCount_matches (v : List Char) (q : Option Char)
    (hbnd : v = [] ∨ ∃ c v2, v = c :: v2 ∧ isWordChar c = false) :
    (matchList failPatErrCount q
      ('0' :: ' ' :: 'e' :: 'r' :: 'r' :: 'o' :: 'r' :: 's' :: v)).isEmpty = false := by
  rcases hbnd with rfl | ⟨c, v2, rfl, hc⟩
  · simp [failPatErrCount, rcat, rstr, rchars, matchList, starMatches, Ratom.matches,
      boundaryB, isWordChar]
  · simp [failPatErrCount, rcat, rstr, rchars, matchList, starMatches, Ratom.matches,
      boundaryB, isWordChar, hc]
    simpa [isWordChar] using hc

end ValidateStop

namespace ValidateStop

/-- Claim C9 counterexample: a transcript whose trailing window
contains the phrase `0 errors` (inside `0 errorsy`, i.e. followed by a
word character) while all three required frontend commands appear and a
success marker is present: the trailing `\b` of `\d+ errors?\b` does
not match, so `has_failures` is false and `passed` is even true —
contradicting the claimed `hasFailureSignal = true` / `passed = false`. -/
theorem zero_errors_wordchar_cex :
    containsSeq "0 errors".data
      (recentWindow "cd frontend && npm run build\ncd frontend && npm test\ncd frontend && npm run lint\nBuild completed\n0 errorsy") = true ∧
    (check_validation_in_transcript
      "cd frontend && npm run build\ncd frontend && npm test\ncd frontend && npm run lint\nBuild completed\n0 errorsy"
      "frontend").has_failures = false ∧
    (check_validation_in_transcript
      "cd frontend && npm run build\ncd frontend && npm test\ncd frontend && npm run lint\nBuild completed\n0 errorsy"
      "frontend").passed = true := by
  refine ⟨by decide, by decide, by decide⟩

/-- Claim C9 as amended: for every transcript whose trailing 100-line
window contains `0 errors` followed by the end of the window or by a
non-word character (so that the trailing `\b` of `\d+ errors?\b` can
match), the scanner reports `hasFailureSignal = true` and therefore
`passed = false`, even when every required command was invoked and a
success marker is present; an occurrence of `0 errors` followed by a
word character does not by itself trigger the failure signal. -/
theorem zero_errors_failure_amended (transcript target_package : String) (u v : List Char)
    (hwin : recentWindow transcript
      = u ++ ('0' :: ' ' :: 'e' :: 'r' :: 'r' :: 'o' :: 'r' :: 's' :: v))
    (hbnd : v = [] ∨ ∃ c v2, v = c :: v2 ∧ isWordChar c = false) :
    (check_validation_in_transcript transcript target_package).has_failures = true ∧
    (check_validation_in_transcript transcript target_package).passed = false := by
  have hsearch : reSearch failPatErrCount (recentWindow transcript) = true := by
    rw [hwin]
    exact searchFrom_of_suffix failPatErrCount _
      (fun q => failPatErrCount_matches v q hbnd) u none
  have hf : (check_validation_in_transcript transcript target_package).has_failures = true := by
    simp only [check_validation_in_transcript, failure_patterns, List.any_cons, List.any_nil]
    simp [hsearch]
  refine ⟨hf, ?_⟩
  simp only [check_validation_in_transcript] at hf ⊢
  simp only [hf]
  simp

/-- Claim C9 witness: the single-line transcript `0 errors` (the
occurrence ends the window) triggers the failure signal and fails. -/
theorem zero_errors_failure_amended_witness :
    (check_validation_in_transcript "0 errors" "frontend").has_failures = true ∧
    (check_validation_in_transcript "0 errors" "frontend").passed = false :=
  zero_errors_failure_amended "0 errors" "frontend" [] [] (by decide) (Or.inl rfl)

end ValidateStop
